import Mathlib

/-!
Verification of the ground-noise estimation engine of the jpx-dashboard
repository (`src/analysis/noise_calculator.py`), as a shallow embedding.

Python floats are modelled as real numbers; the lateral-attenuation table
interpolation, which uses only field operations and comparisons, is stated
over an arbitrary `LinearOrderedField` so it can also be evaluated at `ℚ`.
Python's `round` (banker's rounding, half to even) is modelled by `pyRound`.
Python exceptions (`IndexError` on `observers[0]`, `OverflowError` on
`round(float("inf"))`) are modelled by `Option`: `none` means the call raises.
-/

namespace NoiseCalculator

open Real

/-- Python `round` on a real number: round half to even (banker's rounding). -/
noncomputable def pyRound (x : ℝ) : ℤ :=
  if x - ⌊x⌋ = 1/2 then (if Even ⌊x⌋ then ⌊x⌋ else ⌊x⌋ + 1) else round x

/-- If `x` lies strictly between `n - 1/2` and `n + 1/2` then `pyRound x = n`. -/
theorem pyRound_eq_of_lt_of_lt (n : ℤ) (x : ℝ)
    (h1 : (n : ℝ) - 1/2 < x) (h2 : x < (n : ℝ) + 1/2) : pyRound x = n := by
  have hhalf : x - ⌊x⌋ ≠ 1/2 := by
    intro h
    have hx : x = (⌊x⌋ : ℝ) + 1/2 := by linarith
    have hlt : (n : ℝ) - 1 < (⌊x⌋ : ℝ) := by linarith
    have hlt' : (⌊x⌋ : ℝ) < (n : ℝ) := by linarith
    have h1' : n - 1 < ⌊x⌋ := by exact_mod_cast hlt
    have h2' : ⌊x⌋ < n := by exact_mod_cast hlt'
    omega
  rw [pyRound, if_neg hhalf, round_eq]
  refine Int.floor_eq_iff.mpr ⟨by linarith, by linarith⟩

/-- `pyRound` never exceeds the usual round-half-up `round`. -/
theorem pyRound_le_round (x : ℝ) : pyRound x ≤ round x := by
  rw [pyRound]
  split
  · next h =>
    have hx : x + 1/2 = ((⌊x⌋ + 1 : ℤ) : ℝ) := by push_cast; linarith
    have : round x = ⌊x⌋ + 1 := by rw [round_eq, hx, Int.floor_intCast]
    rw [this]
    split <;> omega
  · exact le_refl _

/-- `pyRound` is monotone. -/
theorem pyRound_mono {x y : ℝ} (hxy : x ≤ y) : pyRound x ≤ pyRound y := by
  have hround : round x ≤ round y := by
    rw [round_eq, round_eq]
    exact Int.floor_mono (by linarith)
  rcases eq_or_lt_of_le hxy with rfl | hlt
  · exact le_refl _
  by_cases hy : y - ⌊y⌋ = 1/2 ∧ Even ⌊y⌋
  · -- `y` is an exact half with even floor: `pyRound y = ⌊y⌋`.
    have hpy : pyRound y = ⌊y⌋ := by rw [pyRound, if_pos hy.1, if_pos hy.2]
    have hfl : ⌊x + 1/2⌋ < ⌊y⌋ + 1 :=
      Int.floor_lt.mpr (by push_cast; linarith [hy.1])
    calc pyRound x ≤ round x := pyRound_le_round x
    _ = ⌊x + 1/2⌋ := round_eq x
    _ ≤ ⌊y⌋ := by omega
    _ = pyRound y := hpy.symm
  · -- otherwise `pyRound y = round y`.
    have hpy : pyRound y = round y := by
      rw [pyRound]
      split
      · next hhalf =>
        have hodd : ¬ Even ⌊y⌋ := fun he => hy ⟨hhalf, he⟩
        rw [if_neg hodd]
        have hyx : y + 1/2 = ((⌊y⌋ + 1 : ℤ) : ℝ) := by push_cast; linarith
        rw [round_eq, hyx, Int.floor_intCast]
      · rfl
    calc pyRound x ≤ round x := pyRound_le_round x
    _ ≤ round y := hround
    _ = pyRound y := hpy.symm

/-- `pyRound` of an integer is that integer. -/
theorem pyRound_intCast (n : ℤ) : pyRound ((n : ℝ)) = n := by
  apply pyRound_eq_of_lt_of_lt <;> norm_num

-- ─── Lateral Attenuation Table (SAE-AIR-5662) ────────────────────────────────

/-- `LATERAL_ATTENUATION_TABLE` from the source: pairs (angle, attenuation dB). -/
def LATERAL_ATTENUATION_TABLE {α : Type*} [LinearOrderedField α] : List (α × α) :=
  [(0, 0),        -- Directly below
   (10, 1/2),
   (20, 6/5),
   (30, 5/2),
   (40, 4),
   (50, 11/2),
   (60, 7),
   (70, 17/2),
   (80, 19/2),
   (90, 10)]      -- Perpendicular

/-- The `for i in range(len(TABLE) - 1)` scan with `break`: the first pair of
consecutive table entries whose angles bracket `angle`. -/
def findSegment {α : Type*} [LinearOrderedField α] (angle : α) :
    List (α × α) → Option ((α × α) × (α × α))
  | p :: q :: rest =>
      if p.1 ≤ angle ∧ angle ≤ q.1 then some (p, q) else findSegment angle (q :: rest)
  | _ => none

/-- `get_lateral_attenuation` from the source: clamp `abs(angle)` into [0, 90],
find the bracketing table segment (defaulting to the first and last entries,
`(0,0)` and `(90,10)`, when no segment matches) and linearly interpolate. -/
def get_lateral_attenuation {α : Type*} [LinearOrderedField α] (angle_degrees : α) : α :=
  let angle := min 90 (max 0 |angle_degrees|)
  let seg := (findSegment angle LATERAL_ATTENUATION_TABLE).getD ((0, 0), (90, 10))
  let lower := seg.1
  let upper := seg.2
  -- Python `(upper[0] - lower[0] or 1)`: a zero denominator is replaced by 1.
  let denom := if upper.1 - lower.1 = 0 then 1 else upper.1 - lower.1
  let ratio := (angle - lower.1) / denom
  lower.2 + ratio * (upper.2 - lower.2)

section LateralAttenuation

variable {α : Type*} [LinearOrderedField α]

/-- A clamped-ramp ("hinge") term: `0` left of `c`, slope `1` on `[c, c+10]`,
`10` beyond. The interpolated table function is a positive combination of these. -/
def hinge (c x : α) : α := min 10 (max 0 (x - c))

theorem hinge_mono (c : α) {x y : α} (h : x ≤ y) : hinge c x ≤ hinge c y :=
  min_le_min le_rfl (max_le_max le_rfl (by linarith))

/-- The table function on `[0, 90]`, written as a sum of hinge terms with the
per-degree slopes of the nine table segments. -/
def hingeSum (x : α) : α :=
  (1/20) * hinge 0 x + (7/100) * hinge 10 x + (13/100) * hinge 20 x +
  (3/20) * hinge 30 x + (3/20) * hinge 40 x + (3/20) * hinge 50 x +
  (3/20) * hinge 60 x + (1/10) * hinge 70 x + (1/20) * hinge 80 x

theorem hingeSum_mono {x y : α} (h : x ≤ y) : hingeSum x ≤ hingeSum y := by
  have h0 := hinge_mono (0 : α) h
  have h1 := hinge_mono (10 : α) h
  have h2 := hinge_mono (20 : α) h
  have h3 := hinge_mono (30 : α) h
  have h4 := hinge_mono (40 : α) h
  have h5 := hinge_mono (50 : α) h
  have h6 := hinge_mono (60 : α) h
  have h7 := hinge_mono (70 : α) h
  have h8 := hinge_mono (80 : α) h
  rw [hingeSum, hingeSum]
  linarith

/-- In-range angles are left unchanged by the `min 90 (max 0 abs)` clamp. -/
theorem clamp_eq_self {x : α} (h0 : 0 ≤ x) (h90 : x ≤ 90) :
    min (90 : α) (max 0 |x|) = x := by
  rw [abs_of_nonneg h0, max_eq_right h0, min_eq_right h90]

theorem findSegment_seg0 {x : α} (h0 : 0 ≤ x) (h1 : x ≤ 10) :
    findSegment x LATERAL_ATTENUATION_TABLE = some ((0, 0), (10, 1/2)) := by
  simp only [LATERAL_ATTENUATION_TABLE, findSegment]
  rw [if_pos ⟨h0, h1⟩]

theorem findSegment_seg1 {x : α} (h0 : 10 < x) (h1 : x ≤ 20) :
    findSegment x LATERAL_ATTENUATION_TABLE = some ((10, 1/2), (20, 6/5)) := by
  simp only [LATERAL_ATTENUATION_TABLE, findSegment]
  rw [if_neg (by rintro ⟨-, h⟩; linarith), if_pos ⟨by linarith, h1⟩]

theorem findSegment_seg2 {x : α} (h0 : 20 < x) (h1 : x ≤ 30) :
    findSegment x LATERAL_ATTENUATION_TABLE = some ((20, 6/5), (30, 5/2)) := by
  simp only [LATERAL_ATTENUATION_TABLE, findSegment]
  rw [if_neg (by rintro ⟨-, h⟩; linarith), if_neg (by rintro ⟨-, h⟩; linarith),
    if_pos ⟨by linarith, h1⟩]

theorem findSegment_seg3 {x : α} (h0 : 30 < x) (h1 : x ≤ 40) :
    findSegment x LATERAL_ATTENUATION_TABLE = some ((30, 5/2), (40, 4)) := by
  simp only [LATERAL_ATTENUATION_TABLE, findSegment]
  rw [if_neg (by rintro ⟨-, h⟩; linarith), if_neg (by rintro ⟨-, h⟩; linarith),
    if_neg (by rintro ⟨-, h⟩; linarith), if_pos ⟨by linarith, h1⟩]

theorem findSegment_seg4 {x : α} (h0 : 40 < x) (h1 : x ≤ 50) :
    findSegment x LATERAL_ATTENUATION_TABLE = some ((40, 4), (50, 11/2)) := by
  simp only [LATERAL_ATTENUATION_TABLE, findSegment]
  rw [if_neg (by rintro ⟨-, h⟩; linarith), if_neg (by rintro ⟨-, h⟩; linarith),
    if_neg (by rintro ⟨-, h⟩; linarith), if_neg (by rintro ⟨-, h⟩; linarith),
    if_pos ⟨by linarith, h1⟩]

theorem findSegment_seg5 {x : α} (h0 : 50 < x) (h1 : x ≤ 60) :
    findSegment x LATERAL_ATTENUATION_TABLE = some ((50, 11/2), (60, 7)) := by
  simp only [LATERAL_ATTENUATION_TABLE, findSegment]
  rw [if_neg (by rintro ⟨-, h⟩; linarith), if_neg (by rintro ⟨-, h⟩; linarith),
    if_neg (by rintro ⟨-, h⟩; linarith), if_neg (by rintro ⟨-, h⟩; linarith),
    if_neg (by rintro ⟨-, h⟩; linarith), if_pos ⟨by linarith, h1⟩]

theorem findSegment_seg6 {x : α} (h0 : 60 < x) (h1 : x ≤ 70) :
    findSegment x LATERAL_ATTENUATION_TABLE = some ((60, 7), (70, 17/2)) := by
  simp only [LATERAL_ATTENUATION_TABLE, findSegment]
  rw [if_neg (by rintro ⟨-, h⟩; linarith), if_neg (by rintro ⟨-, h⟩; linarith),
    if_neg (by rintro ⟨-, h⟩; linarith), if_neg (by rintro ⟨-, h⟩; linarith),
    if_neg (by rintro ⟨-, h⟩; linarith), if_neg (by rintro ⟨-, h⟩; linarith),
    if_pos ⟨by linarith, h1⟩]

theorem findSegment_seg7 {x : α} (h0 : 70 < x) (h1 : x ≤ 80) :
    findSegment x LATERAL_ATTENUATION_TABLE = some ((70, 17/2), (80, 19/2)) := by
  simp only [LATERAL_ATTENUATION_TABLE, findSegment]
  rw [if_neg (by rintro ⟨-, h⟩; linarith), if_neg (by rintro ⟨-, h⟩; linarith),
    if_neg (by rintro ⟨-, h⟩; linarith), if_neg (by rintro ⟨-, h⟩; linarith),
    if_neg (by rintro ⟨-, h⟩; linarith), if_neg (by rintro ⟨-, h⟩; linarith),
    if_neg (by rintro ⟨-, h⟩; linarith), if_pos ⟨by linarith, h1⟩]

theorem findSegment_seg8 {x : α} (h0 : 80 < x) (h1 : x ≤ 90) :
    findSegment x LATERAL_ATTENUATION_TABLE = some ((80, 19/2), (90, 10)) := by
  simp only [LATERAL_ATTENUATION_TABLE, findSegment]
  rw [if_neg (by rintro ⟨-, h⟩; linarith), if_neg (by rintro ⟨-, h⟩; linarith),
    if_neg (by rintro ⟨-, h⟩; linarith), if_neg (by rintro ⟨-, h⟩; linarith),
    if_neg (by rintro ⟨-, h⟩; linarith), if_neg (by rintro ⟨-, h⟩; linarith),
    if_neg (by rintro ⟨-, h⟩; linarith), if_neg (by rintro ⟨-, h⟩; linarith),
    if_pos ⟨by linarith, h1⟩]

theorem hinge_of_le {c x : α} (h : x ≤ c) : hinge c x = 0 := by
  rw [hinge, max_eq_left (by linarith), min_eq_right (by norm_num)]

theorem hinge_of_ge {c x : α} (h : c + 10 ≤ x) : hinge c x = 10 := by
  rw [hinge, max_eq_right (by linarith), min_eq_left (by linarith)]

theorem hinge_of_between {c x : α} (h1 : c ≤ x) (h2 : x ≤ c + 10) :
    hinge c x = x - c := by
  rw [hinge, max_eq_right (by linarith), min_eq_right (by linarith)]

/-- On `[0, 90]` the interpolated table function equals the hinge-term sum. -/
theorem lat_att_eq_hingeSum {x : α} (h0 : 0 ≤ x) (h90 : x ≤ 90) :
    get_lateral_attenuation x = hingeSum x := by
  have hcl := clamp_eq_self h0 h90
  rcases le_or_lt x 10 with h | h1
  · simp only [get_lateral_attenuation, hcl, findSegment_seg0 h0 h, Option.getD_some]
    rw [hingeSum, hinge_of_between (by linarith) (by linarith),
      hinge_of_le (by linarith), hinge_of_le (by linarith), hinge_of_le (by linarith),
      hinge_of_le (by linarith), hinge_of_le (by linarith), hinge_of_le (by linarith),
      hinge_of_le (by linarith), hinge_of_le (by linarith), if_neg (by norm_num)]
    ring
  rcases le_or_lt x 20 with h | h2
  · simp only [get_lateral_attenuation, hcl, findSegment_seg1 h1 h, Option.getD_some]
    rw [hingeSum, hinge_of_ge (by linarith), hinge_of_between (by linarith) (by linarith),
      hinge_of_le (by linarith), hinge_of_le (by linarith), hinge_of_le (by linarith),
      hinge_of_le (by linarith), hinge_of_le (by linarith), hinge_of_le (by linarith),
      hinge_of_le (by linarith), if_neg (by norm_num)]
    ring
  rcases le_or_lt x 30 with h | h3
  · simp only [get_lateral_attenuation, hcl, findSegment_seg2 h2 h, Option.getD_some]
    rw [hingeSum, hinge_of_ge (by linarith), hinge_of_ge (by linarith),
      hinge_of_between (by linarith) (by linarith), hinge_of_le (by linarith),
      hinge_of_le (by linarith), hinge_of_le (by linarith), hinge_of_le (by linarith),
      hinge_of_le (by linarith), hinge_of_le (by linarith), if_neg (by norm_num)]
    ring
  rcases le_or_lt x 40 with h | h4
  · simp only [get_lateral_attenuation, hcl, findSegment_seg3 h3 h, Option.getD_some]
    rw [hingeSum, hinge_of_ge (by linarith), hinge_of_ge (by linarith),
      hinge_of_ge (by linarith), hinge_of_between (by linarith) (by linarith),
      hinge_of_le (by linarith), hinge_of_le (by linarith), hinge_of_le (by linarith),
      hinge_of_le (by linarith), hinge_of_le (by linarith), if_neg (by norm_num)]
    ring
  rcases le_or_lt x 50 with h | h5
  · simp only [get_lateral_attenuation, hcl, findSegment_seg4 h4 h, Option.getD_some]
    rw [hingeSum, hinge_of_ge (by linarith), hinge_of_ge (by linarith),
      hinge_of_ge (by linarith), hinge_of_ge (by linarith),
      hinge_of_between (by linarith) (by linarith), hinge_of_le (by linarith),
      hinge_of_le (by linarith), hinge_of_le (by linarith), hinge_of_le (by linarith),
      if_neg (by norm_num)]
    ring
  rcases le_or_lt x 60 with h | h6
  · simp only [get_lateral_attenuation, hcl, findSegment_seg5 h5 h, Option.getD_some]
    rw [hingeSum, hinge_of_ge (by linarith), hinge_of_ge (by linarith),
      hinge_of_ge (by linarith), hinge_of_ge (by linarith), hinge_of_ge (by linarith),
      hinge_of_between (by linarith) (by linarith), hinge_of_le (by linarith),
      hinge_of_le (by linarith), hinge_of_le (by linarith), if_neg (by norm_num)]
    ring
  rcases le_or_lt x 70 with h | h7
  · simp only [get_lateral_attenuation, hcl, findSegment_seg6 h6 h, Option.getD_some]
    rw [hingeSum, hinge_of_ge (by linarith), hinge_of_ge (by linarith),
      hinge_of_ge (by linarith), hinge_of_ge (by linarith), hinge_of_ge (by linarith),
      hinge_of_ge (by linarith), hinge_of_between (by linarith) (by linarith),
      hinge_of_le (by linarith), hinge_of_le (by linarith), if_neg (by norm_num)]
    ring
  rcases le_or_lt x 80 with h | h8
  · simp only [get_lateral_attenuation, hcl, findSegment_seg7 h7 h, Option.getD_some]
    rw [hingeSum, hinge_of_ge (by linarith), hinge_of_ge (by linarith),
      hinge_of_ge (by linarith), hinge_of_ge (by linarith), hinge_of_ge (by linarith),
      hinge_of_ge (by linarith), hinge_of_ge (by linarith),
      hinge_of_between (by linarith) (by linarith), hinge_of_le (by linarith),
      if_neg (by norm_num)]
    ring
  · simp only [get_lateral_attenuation, hcl, findSegment_seg8 h8 h90, Option.getD_some]
    rw [hingeSum, hinge_of_ge (by linarith), hinge_of_ge (by linarith),
      hinge_of_ge (by linarith), hinge_of_ge (by linarith), hinge_of_ge (by linarith),
      hinge_of_ge (by linarith), hinge_of_ge (by linarith), hinge_of_ge (by linarith),
      hinge_of_between (by linarith) (by linarith), if_neg (by norm_num)]
    ring

/-- The table function is non-decreasing on `[0, 90]`. -/
theorem lat_att_mono {x y : α} (h0 : 0 ≤ x) (hxy : x ≤ y) (h90 : y ≤ 90) :
    get_lateral_attenuation x ≤ get_lateral_attenuation y := by
  rw [lat_att_eq_hingeSum h0 (le_trans hxy h90),
    lat_att_eq_hingeSum (le_trans h0 hxy) h90]
  exact hingeSum_mono hxy

/-- Negative angles are mirrored: the function is even. -/
theorem lat_att_even (x : α) :
    get_lateral_attenuation (-x) = get_lateral_attenuation x := by
  simp only [get_lateral_attenuation, abs_neg]

/-- Beyond 90 degrees in absolute value, the function saturates at 10. -/
theorem lat_att_saturate {x : α} (h : 90 ≤ |x|) : get_lateral_attenuation x = 10 := by
  have hcl : min (90 : α) (max 0 |x|) = 90 := by
    rw [max_eq_right (abs_nonneg x), min_eq_left h]
  simp only [get_lateral_attenuation, hcl,
    findSegment_seg8 (show (80 : α) < 90 by norm_num) (show (90 : α) ≤ 90 by norm_num),
    Option.getD_some]
  norm_num

theorem lat_att_zero : get_lateral_attenuation (0 : α) = 0 := by
  have hcl : min (90 : α) (max 0 |(0 : α)|) = 0 := by norm_num
  simp only [get_lateral_attenuation, hcl,
    findSegment_seg0 (show (0 : α) ≤ 0 by norm_num) (show (0 : α) ≤ 10 by norm_num),
    Option.getD_some]
  norm_num

theorem lat_att_ninety : get_lateral_attenuation (90 : α) = 10 :=
  lat_att_saturate (by norm_num)

end LateralAttenuation

-- ─── Category Averages (LAmax at 1000ft reference) ───────────────────────────

/-- `CATEGORY_AVERAGES` from the source: category → weight class → dB. -/
def CATEGORY_AVERAGES : List (String × List (String × ℚ)) :=
  [("helicopter", [("default", 84), ("light", 78), ("medium", 84), ("heavy", 90)]),
   ("jet", [("default", 88), ("light", 82), ("medium", 88), ("heavy", 94)]),
   ("fixed_wing", [("default", 76), ("light", 72), ("medium", 76), ("heavy", 82)]),
   ("unknown", [("default", 80)])]

/-- The `NoiseProfile` dataclass. dB values are decimal numbers in the JSON
data, modelled as rationals. -/
structure NoiseProfile where
  icao_type : String
  manufacturer : Option String
  model : Option String
  category : String
  takeoff_db : ℚ
  approach_db : ℚ
  lateral_epnl : Option ℚ := none
  flyover_epnl : Option ℚ := none
  approach_epnl : Option ℚ := none
  data_source : String := "CATEGORY_ESTIMATE"
  confidence : String := "medium"
  deriving DecidableEq

/-- The module-level EASA profile cache `_noise_profiles_cache`, keyed by
uppercase ICAO type code. Its contents come from
`data/noise/easa/icaoToEasaMap.json`, which is repository data, not code;
it is therefore kept abstract here and passed explicitly. -/
abbrev ProfileTable := List (String × NoiseProfile)

/-- Python `str.upper()` (`String.toUpper`), written by structural recursion
over the character list so that it evaluates inside the kernel. -/
def upper (s : String) : String := String.mk (s.data.map Char.toUpper)

/-- `get_noise_profile` from the source. `icao_type = none` models Python
`None` (the code guards with `icao_type or ""`). When the code misses the
table, a category-average profile is synthesized; `cat_data["default"]`
cannot raise `KeyError` because every `CATEGORY_AVERAGES` entry has a
`"default"` key, so the `.getD 0` fallback is unreachable. -/
def get_noise_profile (profiles : ProfileTable) (icao_type : Option String)
    (category : String := "unknown") : NoiseProfile :=
  let icao_upper := upper (icao_type.getD "")
  match profiles.lookup icao_upper with
  | some p => p
  | none =>
      let cat_data := (CATEGORY_AVERAGES.lookup category).getD
        ((CATEGORY_AVERAGES.lookup "unknown").getD [])
      let d := (cat_data.lookup "default").getD 0
      { icao_type := if icao_upper = "" then "UNKN" else icao_upper
        manufacturer := none
        model := none
        category := category
        takeoff_db := d
        approach_db := d - 4
        data_source := "CATEGORY_ESTIMATE"
        confidence := "low" }

theorem lookup_mem {β : Type*} {l : List (String × β)} {k : String} {p : β}
    (h : l.lookup k = some p) : (k, p) ∈ l := by
  induction l with
  | nil => simp [List.lookup] at h
  | cons e t ih =>
      obtain ⟨k', v⟩ := e
      rw [List.lookup] at h
      cases hk : (k == k') with
      | true =>
          simp only [hk] at h
          obtain rfl : v = p := by simpa using h
          obtain rfl : k = k' := by simpa using hk
          exact List.mem_cons_self _ _
      | false =>
          simp only [hk] at h
          exact List.mem_cons_of_mem _ (ih h)

/-- A sample one-entry certified table used by witnesses. -/
def sampleCertifiedTable : ProfileTable :=
  [("S76", { icao_type := "S76", manufacturer := some "Sikorsky",
             model := some "S-76", category := "helicopter",
             takeoff_db := 92, approach_db := 88,
             data_source := "EASA_CERTIFIED", confidence := "high" })]

/-- C4: for every type code (any string, or Python `None`) and every category
hint, `get_noise_profile` returns a profile without raising — it is a total
function in this embedding, every Python partial operation in it being
guarded — and, for any profile table whose entries obey the generator
invariant that non-certified entries carry low confidence, the returned
profile's confidence is `"low"` whenever its data source is not
`"EASA_CERTIFIED"`. -/
theorem C4_profile_fallback_confidence (profiles : ProfileTable)
    (htbl : ∀ e ∈ profiles, e.2.data_source ≠ "EASA_CERTIFIED" → e.2.confidence = "low")
    (icao_type : Option String) (category : String) :
    (get_noise_profile profiles icao_type category).data_source ≠ "EASA_CERTIFIED" →
    (get_noise_profile profiles icao_type category).confidence = "low" := by
  simp only [get_noise_profile]
  split
  · next p hp => exact fun hsrc => htbl _ (lookup_mem hp) hsrc
  · exact fun _ => rfl

/-- Witness for C4: a concrete certified table and the unknown code "ZZZZ". -/
theorem C4_witness :
    (∀ e ∈ sampleCertifiedTable, e.2.data_source ≠ "EASA_CERTIFIED" → e.2.confidence = "low") ∧
    (get_noise_profile sampleCertifiedTable (some "ZZZZ") "unknown").confidence = "low" :=
  ⟨by decide, C4_profile_fallback_confidence sampleCertifiedTable (by decide)
    (some "ZZZZ") "unknown" (by decide)⟩

/-- C5: a type code missing from the certified table, with category hint
`"unknown"`, resolves to a synthesized profile with
`data_source = "CATEGORY_ESTIMATE"`, `confidence = "low"`, a takeoff level of
80 dB (the unknown-category default) and an approach level 4 dB below the
takeoff level. (With no hint given the Python default is also `"unknown"`,
so the same equalities hold.) -/
theorem C5_unknown_code_category_defaults (profiles : ProfileTable)
    (icao_type : Option String)
    (h : profiles.lookup (upper (icao_type.getD "")) = none) :
    (get_noise_profile profiles icao_type "unknown").data_source = "CATEGORY_ESTIMATE" ∧
    (get_noise_profile profiles icao_type "unknown").confidence = "low" ∧
    (get_noise_profile profiles icao_type "unknown").takeoff_db = 80 ∧
    (get_noise_profile profiles icao_type "unknown").approach_db =
      (get_noise_profile profiles icao_type "unknown").takeoff_db - 4 := by
  simp only [get_noise_profile, h]
  norm_num [CATEGORY_AVERAGES, List.lookup]

/-- Witness for C5: the empty table and the code "ZZZZ". -/
theorem C5_witness :
    ([] : ProfileTable).lookup (upper ((some "ZZZZ").getD "")) = none ∧
    ((get_noise_profile [] (some "ZZZZ") "unknown").data_source = "CATEGORY_ESTIMATE" ∧
     (get_noise_profile [] (some "ZZZZ") "unknown").confidence = "low" ∧
     (get_noise_profile [] (some "ZZZZ") "unknown").takeoff_db = 80 ∧
     (get_noise_profile [] (some "ZZZZ") "unknown").approach_db =
       (get_noise_profile [] (some "ZZZZ") "unknown").takeoff_db - 4) :=
  ⟨rfl, C5_unknown_code_category_defaults [] (some "ZZZZ") rfl⟩

/-- C8: an empty (or `None`) type code that misses the certified table yields
`icao_type = "UNKN"` (not the empty string); the profile's `category` is the
hint verbatim, even for a hint outside the four known categories, in which
case the dB values still come from the unknown-category defaults (80/76). -/
theorem C8_empty_code_unkn (profiles : ProfileTable) (category : String)
    (h : profiles.lookup "" = none) :
    (get_noise_profile profiles none category).icao_type = "UNKN" ∧
    (get_noise_profile profiles (some "") category).icao_type = "UNKN" ∧
    (get_noise_profile profiles none category).category = category ∧
    (CATEGORY_AVERAGES.lookup category = none →
      (get_noise_profile profiles none category).takeoff_db = 80 ∧
      (get_noise_profile profiles none category).approach_db = 76) := by
  have hu : upper ((none : Option String).getD "") = "" := rfl
  have hu' : upper ((some "").getD "") = "" := rfl
  refine ⟨?_, ?_, ?_, fun hcat => ?_⟩
  · simp only [get_noise_profile, hu, h]
    rfl
  · simp only [get_noise_profile, hu', h]
    rfl
  · simp only [get_noise_profile, hu, h]
  · simp only [get_noise_profile, hu, h, hcat]
    norm_num [CATEGORY_AVERAGES, List.lookup]

/-- Witness for C8: the empty table and the out-of-vocabulary hint
"spaceship". -/
theorem C8_witness :
    ([] : ProfileTable).lookup "" = none ∧
    CATEGORY_AVERAGES.lookup "spaceship" = none ∧
    (get_noise_profile [] none "spaceship").icao_type = "UNKN" ∧
    (get_noise_profile [] none "spaceship").takeoff_db = 80 :=
  ⟨rfl, by decide, (C8_empty_code_unkn [] "spaceship" rfl).1,
    ((C8_empty_code_unkn [] "spaceship" rfl).2.2.2 (by decide)).1⟩

/-- C3 counterexample: the claim states that for every angle outside [0, 90] —
including every negative angle — the result equals the value at the nearest
bound (0.0 below 0). But the code takes `abs` first: at −45° it returns the
mirrored 45° interpolant 4.75, not 0.0. -/
theorem C3_counterexample :
    get_lateral_attenuation (-45 : ℚ) = 19/4 ∧ (19/4 : ℚ) ≠ 0 := by
  constructor
  · norm_num [get_lateral_attenuation, findSegment, LATERAL_ATTENUATION_TABLE,
      min_def, max_def, abs]
  · norm_num

/-- C3 (amended): `get_lateral_attenuation 0 = 0`, `get_lateral_attenuation 90
= 10`, the function is non-decreasing over [0, 90], and outside [0, 90] the
angle is first mirrored by absolute value and then clamped at 90: negative
angles return the value at the mirrored angle (the function is even), and any
angle of absolute value ≥ 90 returns exactly 10 — never an extrapolated
value. -/
theorem C3_lateral_table_bounds :
    get_lateral_attenuation (0 : ℚ) = 0 ∧
    get_lateral_attenuation (90 : ℚ) = 10 ∧
    (∀ x y : ℚ, 0 ≤ x → x ≤ y → y ≤ 90 →
      get_lateral_attenuation x ≤ get_lateral_attenuation y) ∧
    (∀ x : ℚ, get_lateral_attenuation (-x) = get_lateral_attenuation x) ∧
    (∀ x : ℚ, 90 ≤ |x| → get_lateral_attenuation x = 10) :=
  ⟨lat_att_zero, lat_att_ninety,
   fun _ _ h0 hxy h90 => lat_att_mono h0 hxy h90,
   lat_att_even,
   fun _ hx => lat_att_saturate hx⟩

/-- Witness for C3: monotonicity applied at 15 ≤ 35 and saturation at −120°. -/
theorem C3_witness :
    ((0:ℚ) ≤ 15 ∧ (15:ℚ) ≤ 35 ∧ (35:ℚ) ≤ 90 ∧
      get_lateral_attenuation (15:ℚ) ≤ get_lateral_attenuation (35:ℚ)) ∧
    ((90:ℚ) ≤ |(-120:ℚ)| ∧ get_lateral_attenuation (-120:ℚ) = 10) :=
  ⟨⟨by norm_num, by norm_num, by norm_num,
      C3_lateral_table_bounds.2.2.1 15 35 (by norm_num) (by norm_num) (by norm_num)⟩,
   ⟨by norm_num, C3_lateral_table_bounds.2.2.2.2 (-120) (by norm_num)⟩⟩

/-- C9: `get_lateral_attenuation` is an even function — negative angles are
mirrored via the absolute value before the table lookup, not treated as
below-range. -/
theorem C9_lateral_attenuation_even (x : ℚ) :
    get_lateral_attenuation (-x) = get_lateral_attenuation x :=
  lat_att_even x

-- ─── Constants ───────────────────────────────────────────────────────────────

/-- EASA certification reference distance (1000 feet). -/
def CERTIFICATION_REFERENCE_DISTANCE_FT : ℝ := 1000

/-- Standard atmospheric absorption coefficient (0.5 dB per 1000 ft). -/
noncomputable def ATMOSPHERIC_ABSORPTION_COEFFICIENT : ℝ := 1/2

/-- Earth radius in feet (20902230.97). -/
noncomputable def EARTH_RADIUS_FT : ℝ := 2090223097/100

-- ─── Geometry Functions ──────────────────────────────────────────────────────

/-- Python `math.atan2 y x` on reals. Signed zeros are not representable in
`ℝ`; `atan2 0 0 = 0`, matching `math.atan2(+0.0, +0.0)` (the case reached by
this code, whose zero numerators and denominators arise as `a - a` and
`0.0 * c`, which are positive zeros in IEEE arithmetic). -/
noncomputable def atan2 (y x : ℝ) : ℝ :=
  if 0 < x then Real.arctan (y / x)
  else if x < 0 then
    (if 0 ≤ y then Real.arctan (y / x) + Real.pi else Real.arctan (y / x) - Real.pi)
  else if 0 < y then Real.pi / 2
  else if y < 0 then -(Real.pi / 2)
  else 0

/-- Python float `%` with a positive modulus: `a - b * floor (a / b)`. -/
noncomputable def pymod (a b : ℝ) : ℝ := a - b * ⌊a / b⌋

/-- `_to_radians` from the source. -/
noncomputable def to_radians (degrees : ℝ) : ℝ := degrees * (Real.pi / 180)

/-- `_to_degrees` from the source. -/
noncomputable def to_degrees (radians : ℝ) : ℝ := radians * (180 / Real.pi)

/-- `calculate_horizontal_distance_ft` from the source (haversine formula). -/
noncomputable def calculate_horizontal_distance_ft (lat1 lon1 lat2 lon2 : ℝ) : ℝ :=
  let d_lat := to_radians (lat2 - lat1)
  let d_lon := to_radians (lon2 - lon1)
  let a := Real.sin (d_lat / 2) ^ 2 +
    Real.cos (to_radians lat1) * Real.cos (to_radians lat2) * Real.sin (d_lon / 2) ^ 2
  let c := 2 * atan2 (Real.sqrt a) (Real.sqrt (1 - a))
  EARTH_RADIUS_FT * c

/-- `calculate_slant_distance_ft` from the source. -/
noncomputable def calculate_slant_distance_ft (altitude_ft horizontal_ft : ℝ) : ℝ :=
  Real.sqrt (altitude_ft ^ 2 + horizontal_ft ^ 2)

/-- `calculate_bearing` from the source (degrees in [0, 360)). -/
noncomputable def calculate_bearing (lat1 lon1 lat2 lon2 : ℝ) : ℝ :=
  let d_lon := to_radians (lon2 - lon1)
  let y := Real.sin d_lon * Real.cos (to_radians lat2)
  let x := Real.cos (to_radians lat1) * Real.sin (to_radians lat2) -
    Real.sin (to_radians lat1) * Real.cos (to_radians lat2) * Real.cos d_lon
  let bearing := atan2 y x
  pymod (to_degrees bearing + 360) 360

/-- `calculate_lateral_angle` from the source (degrees in [0, 90]). -/
noncomputable def calculate_lateral_angle
    (observer_lat observer_lon aircraft_lat aircraft_lon heading : ℝ) : ℝ :=
  let bearing_to_observer :=
    calculate_bearing aircraft_lat aircraft_lon observer_lat observer_lon
  let angle_diff := |bearing_to_observer - heading|
  let angle_diff := if angle_diff > 180 then 360 - angle_diff else angle_diff
  min 90 angle_diff

-- ─── NoiseEstimate and calculate_ground_noise ────────────────────────────────

/-- The `NoiseEstimate` dataclass. The `round`ed diagnostic fields hold
integer-valued reals, as in Python where `round()` returns `int`. -/
structure NoiseEstimate where
  db : ℝ
  source : String
  confidence : String
  warning : Option String := none
  slant_distance_ft : Option ℝ := none
  horizontal_distance_ft : Option ℝ := none
  geometric_attenuation : Option ℝ := none
  atmospheric_attenuation : Option ℝ := none
  lateral_attenuation : Option ℝ := none

/-- `calculate_ground_noise` from the source. -/
noncomputable def calculate_ground_noise
    (source_db altitude_ft observer_lat observer_lon aircraft_lat aircraft_lon : ℝ)
    (heading : Option ℝ := none) : NoiseEstimate :=
  let horizontal_distance_ft :=
    calculate_horizontal_distance_ft observer_lat observer_lon aircraft_lat aircraft_lon
  let slant_distance_ft := calculate_slant_distance_ft altitude_ft horizontal_distance_ft
  -- Minimum distance to prevent extreme values
  let effective_slant_distance := max slant_distance_ft 100
  -- Geometric spreading (inverse square law)
  let geometric_attenuation :=
    20 * Real.logb 10 (effective_slant_distance / CERTIFICATION_REFERENCE_DISTANCE_FT)
  -- Atmospheric absorption
  let atmospheric_attenuation :=
    (effective_slant_distance / 1000) * ATMOSPHERIC_ABSORPTION_COEFFICIENT
  -- Lateral attenuation
  let lateral_attenuation : ℝ :=
    match heading with
    | none => 0
    | some h => get_lateral_attenuation
        (calculate_lateral_angle observer_lat observer_lon aircraft_lat aircraft_lon h)
  let ground_db :=
    source_db - geometric_attenuation - atmospheric_attenuation - lateral_attenuation
  let ground_db := max 0 ((pyRound (ground_db * 10) : ℝ) / 10)
  { db := ground_db
    source := "CALCULATED"
    confidence := "high"
    slant_distance_ft := some ((pyRound slant_distance_ft : ℝ))
    horizontal_distance_ft := some ((pyRound horizontal_distance_ft : ℝ))
    geometric_attenuation := some ((pyRound (geometric_attenuation * 10) : ℝ) / 10)
    atmospheric_attenuation := some ((pyRound (atmospheric_attenuation * 10) : ℝ) / 10)
    lateral_attenuation := some ((pyRound (lateral_attenuation * 10) : ℝ) / 10) }

theorem ground_db_nonneg
    (source_db altitude_ft observer_lat observer_lon aircraft_lat aircraft_lon : ℝ)
    (heading : Option ℝ) :
    0 ≤ (calculate_ground_noise source_db altitude_ft observer_lat observer_lon
      aircraft_lat aircraft_lon heading).db := by
  simp only [calculate_ground_noise]
  exact le_max_left 0 _

/-- C7: the `db` field returned by `calculate_ground_noise` is non-negative for
every input — any source level, altitude, coordinates, with or without a
heading — including coincident and very distant geometries, because of the
final `max(0, ...)` clamp. -/
theorem C7_ground_noise_nonneg
    (source_db altitude_ft observer_lat observer_lon aircraft_lat aircraft_lon : ℝ)
    (heading : Option ℝ) :
    0 ≤ (calculate_ground_noise source_db altitude_ft observer_lat observer_lon
      aircraft_lat aircraft_lon heading).db :=
  ground_db_nonneg source_db altitude_ft observer_lat observer_lon aircraft_lat
    aircraft_lon heading

-- ─── Evaluation lemmas for the overhead scenario (C2) ────────────────────────

theorem horizontal_same (lat lon : ℝ) :
    calculate_horizontal_distance_ft lat lon lat lon = 0 := by
  simp only [calculate_horizontal_distance_ft, to_radians, sub_self, zero_mul,
    zero_div, Real.sin_zero, ne_eq]
  norm_num [atan2, Real.arctan_zero]

theorem slant_same (lat lon : ℝ) :
    calculate_slant_distance_ft 800 (calculate_horizontal_distance_ft lat lon lat lon)
      = 800 := by
  rw [horizontal_same, calculate_slant_distance_ft,
    show (800:ℝ)^2 + 0^2 = 800^2 by norm_num, Real.sqrt_sq (by norm_num)]

theorem bearing_same (lat lon : ℝ) : calculate_bearing lat lon lat lon = 0 := by
  simp only [calculate_bearing]
  have h0 : to_radians (lon - lon) = 0 := by simp [to_radians]
  rw [h0, Real.sin_zero, Real.cos_zero, zero_mul, mul_one]
  have hx : Real.cos (to_radians lat) * Real.sin (to_radians lat) -
      Real.sin (to_radians lat) * Real.cos (to_radians lat) = 0 := by ring
  rw [hx]
  have ha : atan2 0 0 = 0 := by norm_num [atan2]
  have hd : to_degrees 0 = 0 := by simp [to_degrees]
  rw [ha, hd, zero_add, pymod, show (360:ℝ)/360 = 1 by norm_num, Int.floor_one]
  norm_num

/-- With the aircraft exactly over the observer, the degenerate bearing is 0°,
so heading 280° gives a lateral angle of 80° (not 0°). -/
theorem lateral_angle_overhead (lat lon : ℝ) :
    calculate_lateral_angle lat lon lat lon 280 = 80 := by
  simp only [calculate_lateral_angle, bearing_same]
  norm_num

theorem lat_att_eighty : get_lateral_attenuation (80 : ℝ) = 19/2 := by
  norm_num [get_lateral_attenuation, findSegment, LATERAL_ATTENUATION_TABLE,
    min_def, max_def, abs]

-- ─── Logarithm bounds ────────────────────────────────────────────────────────

theorem log_128_125_bounds :
    (3/128 : ℝ) ≤ Real.log (128/125) ∧ Real.log (128/125) ≤ 3/125 := by
  constructor
  · have h1 := Real.log_le_sub_one_of_pos (show (0:ℝ) < 125/128 by norm_num)
    rw [show (125/128 : ℝ) = (128/125)⁻¹ by norm_num, Real.log_inv] at h1
    have h1' : ((128:ℝ)/125)⁻¹ - 1 = -(3/128) := by norm_num
    linarith
  · have h2 := Real.log_le_sub_one_of_pos (show (0:ℝ) < 128/125 by norm_num)
    have h2' : (128/125 : ℝ) - 1 = 3/125 := by norm_num
    linarith

theorem log_ten_eq :
    Real.log 10 = (10 * Real.log 2 - Real.log (128/125)) / 3 := by
  have h1024 : Real.log 1024 = 10 * Real.log 2 := by
    rw [show (1024:ℝ) = 2^10 by norm_num, Real.log_pow]
    push_cast
    ring
  have h1000 : Real.log 1000 = 3 * Real.log 10 := by
    rw [show (1000:ℝ) = 10^3 by norm_num, Real.log_pow]
    push_cast
    ring
  have hdiv : Real.log (128/125) = Real.log 1024 - Real.log 1000 := by
    rw [← Real.log_div (by norm_num) (by norm_num)]
    norm_num
  rw [hdiv, h1024, h1000]
  ring

theorem log_ten_bounds : (2.3024 : ℝ) < Real.log 10 ∧ Real.log 10 < 2.3027 := by
  have hl2a := Real.log_two_gt_d9
  have hl2b := Real.log_two_lt_d9
  have h1 := log_128_125_bounds
  rw [log_ten_eq]
  constructor <;> [linarith [h1.2]; linarith [h1.1]]

/-- The geometric-spreading term of the overhead scenario:
`200 * log10 (800/1000)` lies strictly between −19.5 and −18.5. -/
theorem geo_term_bounds :
    (-19.5 : ℝ) < 200 * Real.logb 10 (4/5) ∧ 200 * Real.logb 10 (4/5) < -18.5 := by
  have h45 : Real.log (4/5) = 3 * Real.log 2 - Real.log 10 := by
    have h8 : Real.log (8/10) = Real.log 8 - Real.log 10 :=
      Real.log_div (by norm_num) (by norm_num)
    rw [show (4/5:ℝ) = 8/10 by norm_num, h8, show (8:ℝ) = 2^3 by norm_num,
      Real.log_pow]
    push_cast
    ring
  have hten := log_ten_bounds
  have hpos : (0:ℝ) < Real.log 10 := by linarith [hten.1]
  have heq : 200 * Real.logb 10 (4/5) = 600 * Real.log 2 / Real.log 10 - 200 := by
    rw [Real.logb, h45]
    field_simp
    ring
  have hl2a := Real.log_two_gt_d9
  have hl2b := Real.log_two_lt_d9
  have hub : 600 * Real.log 2 / Real.log 10 < 181.5 := by
    rw [div_lt_iff₀ hpos]
    nlinarith [hten.1]
  have hlb : (180.5 : ℝ) < 600 * Real.log 2 / Real.log 10 := by
    rw [lt_div_iff₀ hpos]
    nlinarith [hten.2]
  rw [heq]
  constructor <;> linarith

/-- Full evaluation of the overhead scenario: source 97 dB, 800 ft, aircraft
and observer at the same coordinates, heading 280°. -/
theorem overhead_eval (lat lon : ℝ) :
    (calculate_ground_noise 97 800 lat lon lat lon (some 280)).geometric_attenuation
      = some (-1.9) ∧
    (calculate_ground_noise 97 800 lat lon lat lon (some 280)).atmospheric_attenuation
      = some 0.4 ∧
    (calculate_ground_noise 97 800 lat lon lat lon (some 280)).lateral_attenuation
      = some 9.5 ∧
    (calculate_ground_noise 97 800 lat lon lat lon (some 280)).db = 89 ∧
    (calculate_ground_noise 97 800 lat lon lat lon (some 280)).slant_distance_ft
      = some 800 := by
  have hgb := geo_term_bounds
  have hmax : max (800:ℝ) 100 = 800 := max_eq_left (by norm_num)
  have harg : (800:ℝ) / CERTIFICATION_REFERENCE_DISTANCE_FT = 4/5 := by
    rw [CERTIFICATION_REFERENCE_DISTANCE_FT]
    norm_num
  simp only [calculate_ground_noise, slant_same, lateral_angle_overhead,
    lat_att_eighty, hmax, harg, ATMOSPHERIC_ABSORPTION_COEFFICIENT]
  have hgeo : pyRound (20 * Real.logb 10 (4/5) * 10) = -19 := by
    rw [show (20:ℝ) * Real.logb 10 (4/5) * 10 = 200 * Real.logb 10 (4/5) by ring]
    exact pyRound_eq_of_lt_of_lt (-19) _ (by push_cast; linarith [hgb.1])
      (by push_cast; linarith [hgb.2])
  have hatm : pyRound ((800:ℝ) / 1000 * (1/2) * 10) = 4 := by
    rw [show (800:ℝ) / 1000 * (1/2) * 10 = ((4:ℤ):ℝ) by norm_num]
    exact pyRound_intCast 4
  have hlat : pyRound ((19:ℝ)/2 * 10) = 95 := by
    rw [show (19:ℝ)/2 * 10 = ((95:ℤ):ℝ) by norm_num]
    exact pyRound_intCast 95
  have hdb : pyRound ((97 - 20 * Real.logb 10 (4/5) - 800 / 1000 * (1/2) - 19/2) * 10)
      = 890 := by
    rw [show (97 - 20 * Real.logb 10 (4/5) - 800 / 1000 * (1/2) - 19/2) * 10
      = 871 - 200 * Real.logb 10 (4/5) by ring]
    exact pyRound_eq_of_lt_of_lt 890 _ (by push_cast; linarith [hgb.2])
      (by push_cast; linarith [hgb.1])
  have hslant : pyRound (800:ℝ) = 800 := by
    rw [show (800:ℝ) = ((800:ℤ):ℝ) by norm_num]
    exact pyRound_intCast 800
  refine ⟨?_, ?_, ?_, ?_, ?_⟩
  · rw [hgeo]
    norm_num
  · rw [hatm]
    norm_num
  · rw [hlat]
    norm_num
  · rw [hdb]
    rw [max_eq_right (by norm_num : (0:ℝ) ≤ ((890:ℤ):ℝ)/10)]
    norm_num
  · rw [hslant]
    norm_num

/-- C2 counterexample: at the claim's concrete input — source 97 dB, 800 ft,
observer and aircraft at identical coordinates, heading 280° — the code's
lateral attenuation is 9.5 dB, not the claimed 0.0 dB, and the final level is
89.0 dB, not ≈ 98.5 dB. -/
theorem C2_counterexample :
    (calculate_ground_noise 97 800 (409445/10000) (-722337/10000) (409445/10000)
      (-722337/10000) (some 280)).lateral_attenuation = some 9.5 ∧
    (9.5 : ℝ) ≠ 0 ∧
    (calculate_ground_noise 97 800 (409445/10000) (-722337/10000) (409445/10000)
      (-722337/10000) (some 280)).db = 89 ∧
    (89 : ℝ) ≠ 98.5 :=
  ⟨(overhead_eval (409445/10000) (-722337/10000)).2.2.1, by norm_num,
   (overhead_eval (409445/10000) (-722337/10000)).2.2.2.1, by norm_num⟩

/-- C2 (amended): for source 97.0 dB at 800 ft with observer and aircraft at
the same latitude/longitude and heading 280°, `calculate_ground_noise` reports
geometric attenuation −1.9 dB (`20*log10(800/1000) ≈ −1.94`, rounded) and
atmospheric attenuation 0.4 dB as the claim says, but the lateral attenuation
is 9.5 dB, not 0.0: at coincident points the bearing formula degenerates to
`atan2(0, 0) = 0°`, so the lateral angle is `min(90, 360 − |0 − 280|) = 80°`.
The final level is therefore 89.0 dB, not ≈ 98.5 dB. -/
theorem C2_overhead_scenario (lat lon : ℝ) :
    (calculate_ground_noise 97 800 lat lon lat lon (some 280)).geometric_attenuation
      = some (-1.9) ∧
    (calculate_ground_noise 97 800 lat lon lat lon (some 280)).atmospheric_attenuation
      = some 0.4 ∧
    (calculate_ground_noise 97 800 lat lon lat lon (some 280)).lateral_attenuation
      = some 9.5 ∧
    (calculate_ground_noise 97 800 lat lon lat lon (some 280)).db = 89 :=
  ⟨(overhead_eval lat lon).1, (overhead_eval lat lon).2.1,
   (overhead_eval lat lon).2.2.1, (overhead_eval lat lon).2.2.2.1⟩

-- ─── C6: dependence of db on slant distance ──────────────────────────────────

/-- The tail of `calculate_ground_noise` as a function of the slant distance,
for a fixed source level and lateral-attenuation term: the code from
`effective_slant_distance = max(slant_distance_ft, 100)` down to the final
clamp, verbatim. -/
noncomputable def groundDbOfSlant
    (source_db lateral_attenuation slant_distance_ft : ℝ) : ℝ :=
  let effective_slant_distance := max slant_distance_ft 100
  let geometric_attenuation :=
    20 * Real.logb 10 (effective_slant_distance / CERTIFICATION_REFERENCE_DISTANCE_FT)
  let atmospheric_attenuation :=
    (effective_slant_distance / 1000) * ATMOSPHERIC_ABSORPTION_COEFFICIENT
  let ground_db :=
    source_db - geometric_attenuation - atmospheric_attenuation - lateral_attenuation
  max 0 ((pyRound (ground_db * 10) : ℝ) / 10)

/-- The lateral-attenuation term computed by `calculate_ground_noise`. -/
noncomputable def lateralTermOf
    (observer_lat observer_lon aircraft_lat aircraft_lon : ℝ)
    (heading : Option ℝ) : ℝ :=
  match heading with
  | none => 0
  | some h => get_lateral_attenuation
      (calculate_lateral_angle observer_lat observer_lon aircraft_lat aircraft_lon h)

theorem ground_noise_db_eq_groundDbOfSlant
    (source_db altitude_ft observer_lat observer_lon aircraft_lat aircraft_lon : ℝ)
    (heading : Option ℝ) :
    (calculate_ground_noise source_db altitude_ft observer_lat observer_lon
      aircraft_lat aircraft_lon heading).db
    = groundDbOfSlant source_db
        (lateralTermOf observer_lat observer_lon aircraft_lat aircraft_lon heading)
        (calculate_slant_distance_ft altitude_ft
          (calculate_horizontal_distance_ft observer_lat observer_lon
            aircraft_lat aircraft_lon)) := rfl

/-- Larger slant distance never yields a larger (clamped, rounded) level. -/
theorem groundDbOfSlant_antitone (src latAtt : ℝ) {s1 s2 : ℝ} (h : s1 ≤ s2) :
    groundDbOfSlant src latAtt s2 ≤ groundDbOfSlant src latAtt s1 := by
  have hten : (2.3024:ℝ) < Real.log 10 := log_ten_bounds.1
  have h1 : (100:ℝ) ≤ max s1 100 := le_max_right _ _
  have he : max s1 100 ≤ max s2 100 := max_le_max h le_rfl
  have hlog : Real.log (max s1 100 / 1000) ≤ Real.log (max s2 100 / 1000) :=
    Real.log_le_log (by linarith) (by linarith)
  have hlogb : Real.logb 10 (max s1 100 / CERTIFICATION_REFERENCE_DISTANCE_FT)
      ≤ Real.logb 10 (max s2 100 / CERTIFICATION_REFERENCE_DISTANCE_FT) := by
    rw [CERTIFICATION_REFERENCE_DISTANCE_FT, Real.logb, Real.logb,
      div_eq_mul_inv (Real.log _), div_eq_mul_inv (Real.log _)]
    exact mul_le_mul_of_nonneg_right hlog (inv_nonneg.mpr (by linarith))
  have hinner : (src - 20 * Real.logb 10 (max s2 100 / CERTIFICATION_REFERENCE_DISTANCE_FT)
        - (max s2 100 / 1000) * ATMOSPHERIC_ABSORPTION_COEFFICIENT - latAtt) * 10
      ≤ (src - 20 * Real.logb 10 (max s1 100 / CERTIFICATION_REFERENCE_DISTANCE_FT)
        - (max s1 100 / 1000) * ATMOSPHERIC_ABSORPTION_COEFFICIENT - latAtt) * 10 := by
    rw [ATMOSPHERIC_ABSORPTION_COEFFICIENT]
    linarith
  have hpr := pyRound_mono hinner
  have hprc : ((pyRound ((src - 20 * Real.logb 10 (max s2 100 / CERTIFICATION_REFERENCE_DISTANCE_FT)
      - (max s2 100 / 1000) * ATMOSPHERIC_ABSORPTION_COEFFICIENT - latAtt) * 10) : ℤ) : ℝ)
      ≤ ((pyRound ((src - 20 * Real.logb 10 (max s1 100 / CERTIFICATION_REFERENCE_DISTANCE_FT)
      - (max s1 100 / 1000) * ATMOSPHERIC_ABSORPTION_COEFFICIENT - latAtt) * 10) : ℤ) : ℝ) :=
    Int.cast_le.mpr hpr
  simp only [groundDbOfSlant]
  exact max_le_max le_rfl (by linarith)

theorem groundDbOfSlant_1000 : groundDbOfSlant 97 0 1000 = 96.5 := by
  have hmax : max (1000:ℝ) 100 = 1000 := max_eq_left (by norm_num)
  simp only [groundDbOfSlant, hmax, CERTIFICATION_REFERENCE_DISTANCE_FT,
    ATMOSPHERIC_ABSORPTION_COEFFICIENT]
  rw [show (1000:ℝ)/1000 = 1 by norm_num, Real.logb_one]
  rw [show (97 - 20 * 0 - 1 * (1/2) - 0 : ℝ) * 10 = ((965:ℤ):ℝ) by norm_num,
    pyRound_intCast, max_eq_right (by norm_num : (0:ℝ) ≤ ((965:ℤ):ℝ)/10)]
  norm_num

theorem groundDbOfSlant_1001 : groundDbOfSlant 97 0 1001 = 96.5 := by
  have hmax : max (1001:ℝ) 100 = 1001 := max_eq_left (by norm_num)
  have hten := log_ten_bounds
  have hlub : Real.log (1001/1000) ≤ 1/1000 := by
    have := Real.log_le_sub_one_of_pos (show (0:ℝ) < 1001/1000 by norm_num)
    linarith
  have hlpos : 0 < Real.log (1001/1000) := Real.log_pos (by norm_num)
  have htpos : 0 < Real.logb 10 ((1001:ℝ)/1000) := by
    rw [Real.logb]
    positivity
  have htub : 200 * Real.logb 10 ((1001:ℝ)/1000) < 0.095 := by
    rw [Real.logb, mul_div_assoc']
    rw [div_lt_iff₀ (by linarith [hten.1])]
    nlinarith [hten.1]
  simp only [groundDbOfSlant, hmax, CERTIFICATION_REFERENCE_DISTANCE_FT,
    ATMOSPHERIC_ABSORPTION_COEFFICIENT]
  have hinner : pyRound ((97 - 20 * Real.logb 10 ((1001:ℝ)/1000)
      - (1001/1000) * (1/2) - 0) * 10) = 965 := by
    rw [show (97 - 20 * Real.logb 10 ((1001:ℝ)/1000) - (1001/1000) * (1/2) - 0) * 10
      = 964.995 - 200 * Real.logb 10 ((1001:ℝ)/1000) by ring]
    exact pyRound_eq_of_lt_of_lt 965 _ (by push_cast; linarith) (by push_cast; linarith)
  rw [hinner, max_eq_right (by norm_num : (0:ℝ) ≤ ((965:ℤ):ℝ)/10)]
  norm_num

/-- C6 counterexample: strict decrease fails away from both floors. Slant
distances 1000 ft and 1001 ft (both above the 100 ft floor) give the same
96.5 dB (not the 0 dB floor), because levels are rounded to 0.1 dB. -/
theorem C6_counterexample :
    (1000:ℝ) < 1001 ∧ (100:ℝ) < 1000 ∧
    groundDbOfSlant 97 0 1000 = groundDbOfSlant 97 0 1001 ∧
    groundDbOfSlant 97 0 1000 = 96.5 ∧ (96.5:ℝ) ≠ 0 :=
  ⟨by norm_num, by norm_num,
   by rw [groundDbOfSlant_1000, groundDbOfSlant_1001],
   groundDbOfSlant_1000, by norm_num⟩

/-- C6 (amended): for fixed source level and lateral-attenuation term,
increasing the slant distance never increases the returned `db`: the `db`
field of `calculate_ground_noise` equals `groundDbOfSlant` of the slant
distance, and `groundDbOfSlant` is antitone in the slant distance. The
decrease need not be strict away from the 100 ft and 0 dB floors, because
the result is rounded to 0.1 dB, so nearby slant distances can yield equal
levels. -/
theorem C6_monotone_spreading :
    (∀ source_db altitude_ft observer_lat observer_lon aircraft_lat aircraft_lon
        heading,
      (calculate_ground_noise source_db altitude_ft observer_lat observer_lon
        aircraft_lat aircraft_lon heading).db
      = groundDbOfSlant source_db
          (lateralTermOf observer_lat observer_lon aircraft_lat aircraft_lon heading)
          (calculate_slant_distance_ft altitude_ft
            (calculate_horizontal_distance_ft observer_lat observer_lon
              aircraft_lat aircraft_lon))) ∧
    (∀ src latAtt s1 s2 : ℝ, s1 ≤ s2 →
      groundDbOfSlant src latAtt s2 ≤ groundDbOfSlant src latAtt s1) :=
  ⟨ground_noise_db_eq_groundDbOfSlant,
   fun src latAtt _ _ h => groundDbOfSlant_antitone src latAtt h⟩

/-- Witness for C6 at slant distances 100 ≤ 200. -/
theorem C6_witness :
    (100:ℝ) ≤ 200 ∧ groundDbOfSlant 97 0 200 ≤ groundDbOfSlant 97 0 100 :=
  ⟨by norm_num, C6_monotone_spreading.2 97 0 100 200 (by norm_num)⟩

-- ─── Track positions, observers, aggregator ──────────────────────────────────

/-- The `TrackPosition` dataclass (`altitude_ft`, `groundspeed_kts`, `heading`
are `int` in the source). -/
structure TrackPosition where
  timestamp : String
  latitude : ℝ
  longitude : ℝ
  altitude_ft : ℤ
  groundspeed_kts : Option ℤ := none
  heading : Option ℤ := none

/-- One entry of `OBSERVER_LOCATIONS`. -/
structure Observer where
  id : String
  name : String
  lat : ℝ
  lon : ℝ

/-- `OBSERVER_LOCATIONS` from the source. -/
noncomputable def OBSERVER_LOCATIONS : List Observer :=
  [⟨"wainscott-main", "Wainscott Main Street", 40.9445, -72.2337⟩,
   ⟨"sagaponack-south", "Sagaponack South", 40.9234, -72.2567⟩,
   ⟨"runway-approach", "Runway 28 Approach", 40.9589, -72.2312⟩,
   ⟨"runway-departure", "Runway 10 Departure", 40.9591, -72.2720⟩,
   ⟨"northwest-residential", "Northwest Residential", 40.9678, -72.2612⟩,
   ⟨"georgica-pond", "Georgica Pond Area", 40.9412, -72.2234⟩,
   ⟨"daniels-hole-road", "Daniels Hole Road", 40.9512, -72.2445⟩,
   ⟨"beach-lane", "Beach Lane", 40.9312, -72.2389⟩]

/-- `calculate_noise_at_position` from the source. -/
noncomputable def calculate_noise_at_position (profiles : ProfileTable)
    (icao_type : Option String) (position : TrackPosition)
    (observer_lat observer_lon : ℝ) (direction : String := "arrival")
    (category : String := "unknown") : NoiseEstimate :=
  let profile := get_noise_profile profiles icao_type category
  let source_db : ℚ :=
    if direction = "arrival" then profile.approach_db else profile.takeoff_db
  let estimate := calculate_ground_noise (source_db : ℝ) (position.altitude_ft : ℝ)
    observer_lat observer_lon position.latitude position.longitude
    (position.heading.map fun h => (h : ℝ))
  { estimate with
    source := profile.data_source
    confidence := profile.confidence
    warning :=
      if profile.data_source = "EASA_CERTIFIED" then estimate.warning
      else some ("No EASA data for " ++ icao_type.getD "None" ++ ". Using "
        ++ profile.category ++ " average.") }

/-- One `observer_impacts` record of `calculate_flight_noise_impact`. -/
structure ObserverImpact where
  observer_id : String
  observer_name : String
  max_db : ℝ
  closest_approach_ft : ℤ
  time_above_65db : ℕ
  time_above_75db : ℕ

/-- One iteration of the inner `for position in track` loop of the observer
pass. State: `(obs_max_db, closest_ft, time_above_65, time_above_75)`, with
`closest_ft = none` standing for the initial `float("inf")` (so the
`slant_dist < closest_ft` test is true). The 5-second
`position_interval_seconds` is inlined. -/
noncomputable def observerStep (profiles : ProfileTable) (icao_type : Option String)
    (direction category : String) (obs : Observer)
    (st : ℝ × Option ℝ × ℕ × ℕ) (position : TrackPosition) : ℝ × Option ℝ × ℕ × ℕ :=
  let estimate := calculate_noise_at_position profiles icao_type position
    obs.lat obs.lon direction category
  let obs_max_db := if st.1 < estimate.db then estimate.db else st.1
  let slant_dist := estimate.slant_distance_ft.getD 0
  let closest_ft := match st.2.1 with
    | none => some slant_dist
    | some c => if slant_dist < c then some slant_dist else some c
  let t65 := if 65 ≤ estimate.db then st.2.2.1 + 5 else st.2.2.1
  let t75 := if 75 ≤ estimate.db then st.2.2.2 + 5 else st.2.2.2
  (obs_max_db, closest_ft, t65, t75)

/-- One observer's pass over the track. Returns `none` when Python raises:
`round(closest_ft)` with `closest_ft` still `float("inf")` is an
`OverflowError`, which happens exactly when the track is empty. -/
noncomputable def observerImpact (profiles : ProfileTable) (icao_type : Option String)
    (track : List TrackPosition) (direction category : String) (obs : Observer) :
    Option ObserverImpact :=
  let r := track.foldl (observerStep profiles icao_type direction category obs)
    (0, none, 0, 0)
  match r.2.1 with
  | none => none
  | some c => some
      { observer_id := obs.id
        observer_name := obs.name
        max_db := (pyRound (r.1 * 10) : ℝ) / 10
        closest_approach_ft := pyRound c
        time_above_65db := r.2.2.1
        time_above_75db := r.2.2.2 }

/-- The `for obs in observers` loop: sequential; an exception aborts the call. -/
noncomputable def collectImpacts (profiles : ProfileTable) (icao_type : Option String)
    (track : List TrackPosition) (direction category : String) :
    List Observer → Option (List ObserverImpact)
  | [] => some []
  | obs :: rest =>
      match observerImpact profiles icao_type track direction category obs with
      | none => none
      | some i =>
          match collectImpacts profiles icao_type track direction category rest with
          | none => none
          | some is => some (i :: is)

/-- The dict returned by `calculate_flight_noise_impact`; the `noise_profile`
sub-dict is inlined as `profile_*` fields. -/
structure FlightNoiseImpact where
  fa_flight_id : String
  aircraft_type : Option String
  direction : String
  profile_manufacturer : Option String
  profile_model : Option String
  profile_takeoff_db : ℚ
  profile_approach_db : ℚ
  profile_data_source : String
  profile_confidence : String
  max_ground_db : ℝ
  avg_ground_db : ℝ
  exposure_seconds : ℕ
  track_count : ℕ
  observer_impacts : List ObserverImpact

/-- `calculate_flight_noise_impact` from the source. Returns `none` when the
Python function raises: `IndexError` from `observers[0]` on an empty observer
list, or `OverflowError` from `round(float("inf"))` on an empty track. -/
noncomputable def calculate_flight_noise_impact (profiles : ProfileTable)
    (fa_flight_id : String) (icao_type : Option String)
    (track : List TrackPosition) (direction : String := "arrival")
    (category : String := "unknown")
    (observers : List Observer := OBSERVER_LOCATIONS) :
    Option FlightNoiseImpact :=
  match observers with
  | [] => none
  | primary :: _ =>
      let profile := get_noise_profile profiles icao_type category
      let position_interval_seconds := 5
      let track_noise := track.map fun position =>
        (calculate_noise_at_position profiles icao_type position
          primary.lat primary.lon direction category).db
      let max_db : ℝ := match track_noise with
        | [] => 0
        | v :: vs => vs.foldl max v
      let avg_db : ℝ :=
        if track_noise = [] then 0 else track_noise.sum / track_noise.length
      let exposure_seconds := track.length * position_interval_seconds
      match collectImpacts profiles icao_type track direction category observers with
      | none => none
      | some observer_impacts => some
          { fa_flight_id := fa_flight_id
            aircraft_type := icao_type
            direction := direction
            profile_manufacturer := profile.manufacturer
            profile_model := profile.model
            profile_takeoff_db := profile.takeoff_db
            profile_approach_db := profile.approach_db
            profile_data_source := profile.data_source
            profile_confidence := profile.confidence
            max_ground_db := (pyRound (max_db * 10) : ℝ) / 10
            avg_ground_db := (pyRound (avg_db * 10) : ℝ) / 10
            exposure_seconds := exposure_seconds
            track_count := track.length
            observer_impacts := observer_impacts }

-- ─── Aggregation lemmas ──────────────────────────────────────────────────────

theorem if_lt_max (a b : ℝ) : (if a < b then b else a) = max a b := by
  rcases le_or_lt b a with h | h
  · rw [if_neg (not_lt.mpr h), max_eq_left h]
  · rw [if_pos h, max_eq_right (le_of_lt h)]

theorem observerStep_fst (profiles : ProfileTable) (icao_type : Option String)
    (direction category : String) (obs : Observer)
    (st : ℝ × Option ℝ × ℕ × ℕ) (p : TrackPosition) :
    (observerStep profiles icao_type direction category obs st p).1
    = max st.1 (calculate_noise_at_position profiles icao_type p
        obs.lat obs.lon direction category).db := by
  simp only [observerStep]
  exact if_lt_max _ _

theorem observer_foldl_fst (profiles : ProfileTable) (icao_type : Option String)
    (direction category : String) (obs : Observer) (track : List TrackPosition) :
    ∀ st : ℝ × Option ℝ × ℕ × ℕ,
      (track.foldl (observerStep profiles icao_type direction category obs) st).1
      = (track.map fun p => (calculate_noise_at_position profiles icao_type p
          obs.lat obs.lon direction category).db).foldl max st.1 := by
  induction track with
  | nil => intro st; rfl
  | cons p t ih =>
      intro st
      rw [List.foldl_cons, List.map_cons, List.foldl_cons, ih,
        observerStep_fst]

theorem observerStep_closest_isSome (profiles : ProfileTable)
    (icao_type : Option String) (direction category : String) (obs : Observer)
    (st : ℝ × Option ℝ × ℕ × ℕ) (p : TrackPosition) :
    ((observerStep profiles icao_type direction category obs st p).2.1).isSome := by
  simp only [observerStep]
  cases hc : st.2.1 with
  | none => simp [hc]
  | some c =>
      simp only [hc]
      split <;> rfl

theorem observer_foldl_closest_isSome (profiles : ProfileTable)
    (icao_type : Option String) (direction category : String) (obs : Observer)
    (track : List TrackPosition) :
    ∀ st : ℝ × Option ℝ × ℕ × ℕ, (st.2.1).isSome →
      ((track.foldl (observerStep profiles icao_type direction category obs) st).2.1).isSome := by
  induction track with
  | nil => exact fun st h => h
  | cons p t ih =>
      intro st _
      rw [List.foldl_cons]
      exact ih _ (observerStep_closest_isSome profiles icao_type direction category obs st p)

theorem observerImpact_isSome (profiles : ProfileTable) (icao_type : Option String)
    (direction category : String) (obs : Observer)
    (p : TrackPosition) (t : List TrackPosition) :
    (observerImpact profiles icao_type (p :: t) direction category obs).isSome := by
  simp only [observerImpact, List.foldl_cons]
  have h := observer_foldl_closest_isSome profiles icao_type direction category obs t
    (observerStep profiles icao_type direction category obs (0, none, 0, 0) p)
    (observerStep_closest_isSome profiles icao_type direction category obs _ p)
  obtain ⟨c, hc⟩ := Option.isSome_iff_exists.mp h
  rw [hc]
  rfl

theorem collectImpacts_isSome (profiles : ProfileTable) (icao_type : Option String)
    (direction category : String) (p : TrackPosition) (t : List TrackPosition) :
    ∀ observers : List Observer,
      (collectImpacts profiles icao_type (p :: t) direction category observers).isSome := by
  intro observers
  induction observers with
  | nil => rfl
  | cons o rest ih =>
      simp only [collectImpacts]
      obtain ⟨i, hi⟩ := Option.isSome_iff_exists.mp
        (observerImpact_isSome profiles icao_type direction category o p t)
      rw [hi]
      obtain ⟨is, his⟩ := Option.isSome_iff_exists.mp ih
      rw [his]
      rfl

theorem noise_at_position_db_nonneg (profiles : ProfileTable)
    (icao_type : Option String) (p : TrackPosition) (la lo : ℝ)
    (direction category : String) :
    0 ≤ (calculate_noise_at_position profiles icao_type p la lo direction category).db := by
  simp only [calculate_noise_at_position]
  exact ground_db_nonneg _ _ _ _ _ _ _

/-- C1: on an empty track (with a non-empty observer list) the aggregator
raises instead of returning zero-valued records: `closest_ft` is still
`float("inf")` when the observer loop finishes, and Python's
`round(float("inf"))` raises `OverflowError`, modelled here as `none`. -/
theorem C1_empty_track_raises (profiles : ProfileTable) (fa_flight_id : String)
    (icao_type : Option String) (direction category : String)
    (primary : Observer) (rest : List Observer) :
    calculate_flight_noise_impact profiles fa_flight_id icao_type []
      direction category (primary :: rest) = none := rfl

/-- C10: whenever `calculate_flight_noise_impact` returns (it does so exactly
when both the track and the observer list are non-empty), the `max_db` of the
first observer's impact record equals the whole-track `max_ground_db`: both
are the rounded maximum of the identical per-position estimates at
`observers[0]`, computed twice. -/
theorem C10_primary_observer_agreement :
    (∀ (profiles : ProfileTable) (fa_flight_id : String) (icao_type : Option String)
        (track : List TrackPosition) (direction category : String)
        (observers : List Observer),
      (calculate_flight_noise_impact profiles fa_flight_id icao_type track
        direction category observers).elim True fun r =>
          (r.observer_impacts.head?).elim True fun i => i.max_db = r.max_ground_db) ∧
    (∀ (profiles : ProfileTable) (fa_flight_id : String) (icao_type : Option String)
        (track : List TrackPosition) (direction category : String)
        (primary : Observer) (rest : List Observer),
      track ≠ [] →
      (calculate_flight_noise_impact profiles fa_flight_id icao_type track
        direction category (primary :: rest)).isSome) := by
  constructor
  · intro profiles fid icao track direction category observers
    cases observers with
    | nil => exact trivial
    | cons primary rest =>
        cases track with
        | nil => exact trivial
        | cons p t =>
            simp only [calculate_flight_noise_impact]
            rcases hc : collectImpacts profiles icao (p :: t) direction category
              (primary :: rest) with _ | impacts
            · simp only [hc]
              exact trivial
            · simp only [hc]
              simp only [collectImpacts] at hc
              rcases hoi : observerImpact profiles icao (p :: t) direction category
                primary with _ | i
              · simp [hoi] at hc
              · simp only [hoi] at hc
                rcases hrest : collectImpacts profiles icao (p :: t) direction
                  category rest with _ | is
                · simp [hrest] at hc
                · simp only [hrest] at hc
                  injection hc with hc'
                  subst hc'
                  simp only [observerImpact, List.foldl_cons] at hoi
                  have hsome := observer_foldl_closest_isSome profiles icao direction
                    category primary t
                    (observerStep profiles icao direction category primary
                      (0, none, 0, 0) p)
                    (observerStep_closest_isSome profiles icao direction category
                      primary _ p)
                  obtain ⟨c, hcl⟩ := Option.isSome_iff_exists.mp hsome
                  rw [hcl] at hoi
                  injection hoi with hoi'
                  subst hoi'
                  simp only [Option.elim, List.head?]
                  -- the two maxima agree
                  have hfst := observer_foldl_fst profiles icao direction category
                    primary t
                    (observerStep profiles icao direction category primary
                      (0, none, 0, 0) p)
                  have hstep := observerStep_fst profiles icao direction category
                    primary (0, none, 0, 0) p
                  have hnn := noise_at_position_db_nonneg profiles icao p
                    primary.lat primary.lon direction category
                  rw [hfst, hstep, max_eq_right hnn]
                  simp only [List.map_cons]
  · intro profiles fid icao track direction category primary rest htrack
    cases track with
    | nil => exact absurd rfl htrack
    | cons p t =>
        simp only [calculate_flight_noise_impact]
        obtain ⟨is, his⟩ := Option.isSome_iff_exists.mp
          (collectImpacts_isSome profiles icao direction category p t (primary :: rest))
        rw [his]
        rfl

/-- Witness for C10: a one-position track and one observer; the aggregator
returns a value there. -/
theorem C10_witness :
    ([({ timestamp := "t", latitude := 0, longitude := 0, altitude_ft := 800 }
        : TrackPosition)] ≠ []) ∧
    (calculate_flight_noise_impact [] "flight" (some "ZZZZ")
      [{ timestamp := "t", latitude := 0, longitude := 0, altitude_ft := 800 }]
      "arrival" "unknown" [{ id := "obs", name := "Obs", lat := 0, lon := 0 }]).isSome :=
  ⟨by simp, C10_primary_observer_agreement.2 [] "flight" (some "ZZZZ")
    [{ timestamp := "t", latitude := 0, longitude := 0, altitude_ft := 800 }]
    "arrival" "unknown" { id := "obs", name := "Obs", lat := 0, lon := 0 } []
    (by simp)⟩

end NoiseCalculator
